import Mathlib

/-!
Verification of the asm_emu assembler back end: instruction model, 3-byte
encoder and label resolver, shallowly embedded from src/instr_repr.rs and
src/label_resolver.rs.  Rust u16/u8 values are modelled as Nat (with explicit
mod 2^w where width matters); a Rust panic is modelled as an `Except.error`
carrying the panic message, since the source has no recoverable error type.
-/

namespace AsmEmu

/-- The sixteen general-purpose registers (src/instr_repr.rs, `enum Reg`). -/
inductive Reg where
  | R0 | R1 | R2 | R3 | R4 | R5 | R6 | R7
  | R8 | R9 | R10 | R11 | R12 | R13 | R14 | R15
deriving DecidableEq

/-- Operands (src/instr_repr.rs, `enum Operand`); the u16 payloads of `Imm`
and `MemAtImm` are modelled as Nat. -/
inductive Operand where
  | Reg (r : Reg)
  | Imm (imm : Nat)
  | Label (name : String)
  | MemAtReg (r : Reg)
  | MemAtImm (imm : Nat)
deriving DecidableEq

/-- Instruction mnemonics with their operands (src/instr_repr.rs, `enum Verb`). -/
inductive Verb where
  | Mov (o1 o2 : Operand)
  | Jmp (o1 : Operand)
  | Jz (o1 o2 : Operand)
  | Jnz (o1 o2 : Operand)
  | Add (o1 o2 : Operand)
  | Sub (o1 o2 : Operand)
  | And (o1 o2 : Operand)
  | Or (o1 o2 : Operand)
  | Not (o1 : Operand)
  | Shl (o1 o2 : Operand)
  | Shr (o1 o2 : Operand)
  | Call (o1 : Operand)
  | Ret
  | Dbg (o1 : Operand)
  | DbgRegs
  | Nop
  | Halt
deriving DecidableEq

/-- Message of Rust's argumentless `unreachable` macro, the panic raised by the
encoder's catch-all arms for unmatched operand combinations. -/
def unreachableMsg : String := "internal error: entered unreachable code"

/-- Message of Rust's argumentless `panic` macro, raised by `Operand::to_reg`
and `Operand::to_imm` on an operand of the wrong kind. -/
def explicitPanicMsg : String := "explicit panic"

/-- Embedding of `Reg::to_id` (src/instr_repr.rs): the 4-bit register identifier. -/
def Reg.to_id : Reg → Nat
  | .R0 => 0
  | .R1 => 1
  | .R2 => 2
  | .R3 => 3
  | .R4 => 4
  | .R5 => 5
  | .R6 => 6
  | .R7 => 7
  | .R8 => 8
  | .R9 => 9
  | .R10 => 10
  | .R11 => 11
  | .R12 => 12
  | .R13 => 13
  | .R14 => 14
  | .R15 => 15

/-- Embedding of `Reg::write_into_byte_lower`: clear the low nibble of `b` and or in the id. -/
def Reg.write_into_byte_lower (r : Reg) (b : Nat) : Nat :=
  (b &&& 0xF0) ||| r.to_id

/-- Embedding of `Reg::write_into_byte_upper`: clear the high nibble of `b` and or in the id
shifted left by 4. -/
def Reg.write_into_byte_upper (r : Reg) (b : Nat) : Nat :=
  (b &&& 0x0F) ||| (r.to_id <<< 4)

/-- Embedding of `Operand::to_reg`: the register of a Register operand; panics (`explicit
panic`) on any other kind. -/
def Operand.to_reg : Operand → Except String AsmEmu.Reg
  | .Reg r => .ok r
  | _ => .error explicitPanicMsg

/-- Embedding of `Operand::to_imm`: the value of an Immediate operand; panics (`explicit
panic`) on any other kind. -/
def Operand.to_imm : Operand → Except String Nat
  | .Imm imm => .ok imm
  | _ => .error explicitPanicMsg

/-- Embedding of `u16::to_be_bytes`: big-endian byte pair of the u16 value `imm` represents
(Nat payloads are read modulo 2^16, so each byte carries an explicit mod 256). -/
def to_be_bytes (imm : Nat) : Nat × Nat :=
  (imm / 256 % 256, imm % 256)

/-- Embedding of `write_imm_to_byte_lower` (src/instr_repr.rs): clear the low nibble of `b`
and or in the low 4 bits of the low byte of `imm`. -/
def write_imm_to_byte_lower (imm b : Nat) : Nat :=
  (b &&& 0xF0) ||| ((to_be_bytes imm).2 &&& 0x0F)

/-- Embedding of `Verb::to_bytes` (src/instr_repr.rs): the 3-byte encoding of an
instruction.  The source's `unreachable` catch-all arms and the panics of
`to_reg`/`to_imm` appear as `Except.error` with the corresponding panic
message.  The per-verb arms expand the source's shared `Add|Sub|And|Or` and
`Shl|Shr` matches, whose sub-opcode is chosen by an inner `match self`. -/
def Verb.to_bytes : Verb → Except String (Nat × Nat × Nat)
  | .Mov op1 op2 =>
    match op1, op2 with
    | .Reg r1, .Imm imm =>
      .ok (r1.write_into_byte_lower 0x10, (to_be_bytes imm).1, (to_be_bytes imm).2)
    | .Reg r1, .MemAtImm imm =>
      .ok (r1.write_into_byte_lower 0x20, (to_be_bytes imm).1, (to_be_bytes imm).2)
    | .MemAtImm imm, .Reg r1 =>
      .ok (r1.write_into_byte_lower 0x30, (to_be_bytes imm).1, (to_be_bytes imm).2)
    | .Reg r1, .Reg r2 =>
      .ok (0xF0, 0x00, r2.write_into_byte_lower (r1.write_into_byte_upper 0))
    | .Reg ra, .MemAtReg rb =>
      .ok (0xF0, 0x01, rb.write_into_byte_lower (ra.write_into_byte_upper 0))
    | .MemAtReg ra, .Reg rb =>
      .ok (0xF0, 0x02, rb.write_into_byte_lower (ra.write_into_byte_upper 0))
    | _, _ => .error unreachableMsg
  | .Jmp operand =>
    match operand.to_imm with
    | .ok imm => .ok (0xE3, (to_be_bytes imm).1, (to_be_bytes imm).2)
    | .error e => .error e
  | .Jz imm r =>
    match r.to_reg with
    | .ok rr =>
      match imm.to_imm with
      | .ok i => .ok (rr.write_into_byte_lower 0x40, (to_be_bytes i).1, (to_be_bytes i).2)
      | .error e => .error e
    | .error e => .error e
  | .Jnz imm r =>
    match r.to_reg with
    | .ok rr =>
      match imm.to_imm with
      | .ok i => .ok (rr.write_into_byte_lower 0x50, (to_be_bytes i).1, (to_be_bytes i).2)
      | .error e => .error e
    | .error e => .error e
  | .Add op1 op2 =>
    match op1, op2 with
    | .Reg r1, .Reg r2 =>
      .ok (0xF0, 0x20, r2.write_into_byte_lower (r1.write_into_byte_upper 0))
    | .Reg r1, .Imm imm =>
      .ok (r1.write_into_byte_lower 0xA0, (to_be_bytes imm).1, (to_be_bytes imm).2)
    | _, _ => .error unreachableMsg
  | .Sub op1 op2 =>
    match op1, op2 with
    | .Reg r1, .Reg r2 =>
      .ok (0xF0, 0x21, r2.write_into_byte_lower (r1.write_into_byte_upper 0))
    | .Reg r1, .Imm imm =>
      .ok (r1.write_into_byte_lower 0xB0, (to_be_bytes imm).1, (to_be_bytes imm).2)
    | _, _ => .error unreachableMsg
  | .And op1 op2 =>
    match op1, op2 with
    | .Reg r1, .Reg r2 =>
      .ok (0xF0, 0x22, r2.write_into_byte_lower (r1.write_into_byte_upper 0))
    | .Reg r1, .Imm imm =>
      .ok (r1.write_into_byte_lower 0xC0, (to_be_bytes imm).1, (to_be_bytes imm).2)
    | _, _ => .error unreachableMsg
  | .Or op1 op2 =>
    match op1, op2 with
    | .Reg r1, .Reg r2 =>
      .ok (0xF0, 0x23, r2.write_into_byte_lower (r1.write_into_byte_upper 0))
    | .Reg r1, .Imm imm =>
      .ok (r1.write_into_byte_lower 0xD0, (to_be_bytes imm).1, (to_be_bytes imm).2)
    | _, _ => .error unreachableMsg
  | .Not r =>
    match r.to_reg with
    | .ok rr => .ok (0xF0, 0x24, rr.write_into_byte_upper 0)
    | .error e => .error e
  | .Shl op1 op2 =>
    match op1, op2 with
    | .Reg r1, .Reg r2 =>
      .ok (0xF0, 0x31, r2.write_into_byte_lower (r1.write_into_byte_upper 0))
    | .Reg r, .Imm imm =>
      .ok (0xF0, 0x30, write_imm_to_byte_lower imm (r.write_into_byte_upper 0))
    | _, _ => .error unreachableMsg
  | .Shr op1 op2 =>
    match op1, op2 with
    | .Reg r1, .Reg r2 =>
      .ok (0xF0, 0x33, r2.write_into_byte_lower (r1.write_into_byte_upper 0))
    | .Reg r, .Imm imm =>
      .ok (0xF0, 0x32, write_imm_to_byte_lower imm (r.write_into_byte_upper 0))
    | _, _ => .error unreachableMsg
  | .Dbg op =>
    match op.to_imm with
    | .ok imm => .ok (0xE0, (to_be_bytes imm).1, (to_be_bytes imm).2)
    | .error e => .error e
  | .DbgRegs => .ok (0xE1, 0x00, 0x00)
  | .Nop => .ok (0x00, 0x00, 0x00)
  | .Halt => .ok (0xFF, 0xFF, 0xFF)
  | .Call op =>
    match op.to_imm with
    | .ok imm => .ok (0xE4, (to_be_bytes imm).1, (to_be_bytes imm).2)
    | .error e => .error e
  | .Ret => .ok (0xFF, 0xFF, 0xF0)

/-- Uppercase hexadecimal digit for a value below 16 (Rust's X format). -/
def hex_digit (n : Nat) : Char :=
  if n < 10 then Char.ofNat (48 + n) else Char.ofNat (55 + n)

/-- Digit list of the uppercase hex rendering, most significant first; the
fuel argument bounds the recursion and eight digits cover every value below
2^32, far beyond the u16 and u8 values rendered here. -/
def nat_to_hex_aux : Nat → Nat → List Char
  | 0, _ => []
  | fuel + 1, n =>
    if n = 0 then [] else nat_to_hex_aux fuel (n / 16) ++ [hex_digit (n % 16)]

/-- Uppercase hex rendering without leading zeros, as Rust's X format
specifier prints a u16 or u8. -/
def nat_to_hex (n : Nat) : String :=
  if n = 0 then "0" else String.mk (nat_to_hex_aux 8 n)

/-- Display of a register (src/instr_repr.rs, `impl fmt::Display for Reg`):
the letter R followed by the decimal id. -/
def Reg.display (r : Reg) : String := "R" ++ Nat.repr r.to_id

/-- Display of an operand (src/instr_repr.rs, `impl fmt::Display for Operand`). -/
def Operand.display : Operand → String
  | .Reg r => r.display
  | .Imm v => "0x" ++ nat_to_hex v
  | .Label name => name
  | .MemAtReg r => "[" ++ r.display ++ "]"
  | .MemAtImm v => "[0x" ++ nat_to_hex v ++ "]"

/-- Display of an instruction (src/instr_repr.rs, `impl fmt::Display for
Verb`).  Note the source's Jmp arm writes a trailing space after its operand,
and DbgRegs prints the same mnemonic as Dbg. -/
def Verb.display : Verb → String
  | .Mov o1 o2 => "mov " ++ o1.display ++ " " ++ o2.display
  | .Jmp o1 => "jmp " ++ o1.display ++ " "
  | .Jz o1 o2 => "jz " ++ o1.display ++ " " ++ o2.display
  | .Jnz o1 o2 => "jnz " ++ o1.display ++ " " ++ o2.display
  | .Add o1 o2 => "add " ++ o1.display ++ " " ++ o2.display
  | .Sub o1 o2 => "sub " ++ o1.display ++ " " ++ o2.display
  | .And o1 o2 => "and " ++ o1.display ++ " " ++ o2.display
  | .Or o1 o2 => "or " ++ o1.display ++ " " ++ o2.display
  | .Not o1 => "not " ++ o1.display
  | .Shl o1 o2 => "shl " ++ o1.display ++ " " ++ o2.display
  | .Shr o1 o2 => "shr " ++ o1.display ++ " " ++ o2.display
  | .Dbg o1 => "dbg " ++ o1.display
  | .DbgRegs => "dbg"
  | .Nop => "nop"
  | .Halt => "halt"
  | .Call o1 => "call " ++ o1.display
  | .Ret => "ret"

/-- Rust's 0>2X format: uppercase hex padded with a leading zero to at least
two digits. -/
def pad2_hex (n : Nat) : String :=
  if n < 16 then "0" ++ nat_to_hex n else nat_to_hex n

/-- Embedding of `Verb::as_hex_file_line` (src/instr_repr.rs): the three encoded bytes as
underscore-separated padded hex, two spaces, a double slash, a space, and the
display rendering.  It calls `to_bytes`, so it propagates that panic. -/
def Verb.as_hex_file_line (v : Verb) : Except String String :=
  match v.to_bytes with
  | .ok (b0, b1, b2) =>
    .ok (pad2_hex b0 ++ "_" ++ pad2_hex b1 ++ "_" ++ pad2_hex b2 ++ "  // " ++ v.display)
  | .error e => .error e

/-- Helper for the body of the `if let Operand::Label` block of
`resolve_labels` (src/label_resolver.rs) for one control-transfer operand.  A
label found in the map becomes an Immediate; a missing label is the
`unresolved label` panic; a non-label operand is left unchanged.  The symbol
table (a `HashMap of String to u16` in the source) is modelled as a function
from names to `Option Nat`. -/
def resolve_operand (m : String → Option Nat) (op : Operand) : Except String Operand :=
  match op with
  | .Label s =>
    match m s with
    | some addr => .ok (.Imm addr)
    | none => .error ("unresolved label: " ++ s)
  | _ => .ok op

/-- One iteration of the `resolve_labels` loop: Jmp, Jz, Jnz and Call have
their first operand resolved; every other verb is left untouched. -/
def resolve_verb (m : String → Option Nat) : Verb → Except String Verb
  | .Jmp op =>
    match resolve_operand m op with
    | .ok o => .ok (.Jmp o)
    | .error e => .error e
  | .Jz op o2 =>
    match resolve_operand m op with
    | .ok o => .ok (.Jz o o2)
    | .error e => .error e
  | .Jnz op o2 =>
    match resolve_operand m op with
    | .ok o => .ok (.Jnz o o2)
    | .error e => .error e
  | .Call op =>
    match resolve_operand m op with
    | .ok o => .ok (.Call o)
    | .error e => .error e
  | v => .ok v

/-- Embedding of `resolve_labels` (src/label_resolver.rs): the in-place sweep over the
instruction vector.  The source mutates the vector and panics on the first
unresolved label, so the error case carries both the panic message and the
state of the vector at panic time: already-visited instructions keep their
rewrites, the failing instruction and everything after it are unchanged. -/
def resolve_labels : List Verb → (String → Option Nat) → Except (String × List Verb) (List Verb)
  | [], _ => .ok []
  | v :: rest, m =>
    match resolve_verb m v with
    | .error e => .error (e, v :: rest)
    | .ok v' =>
      match resolve_labels rest m with
      | .ok rest' => .ok (v' :: rest')
      | .error (e, state) => .error (e, v' :: state)

/-- Claim-side discriminator: is this operand a Register reference. -/
def operand_is_reg : Operand → Bool
  | .Reg _ => true
  | _ => false

/-- Claim-side discriminator: is this operand an Immediate. -/
def operand_is_imm : Operand → Bool
  | .Imm _ => true
  | _ => false

/-- Claim-side discriminator: is this operand a Symbolic label. -/
def operand_is_label : Operand → Bool
  | .Label _ => true
  | _ => false

/-- Claim-side predicate: some operand position of the verb holds a Symbolic
label. -/
def verb_has_label : Verb → Bool
  | .Mov o1 o2 => operand_is_label o1 || operand_is_label o2
  | .Jmp o1 => operand_is_label o1
  | .Jz o1 o2 => operand_is_label o1 || operand_is_label o2
  | .Jnz o1 o2 => operand_is_label o1 || operand_is_label o2
  | .Add o1 o2 => operand_is_label o1 || operand_is_label o2
  | .Sub o1 o2 => operand_is_label o1 || operand_is_label o2
  | .And o1 o2 => operand_is_label o1 || operand_is_label o2
  | .Or o1 o2 => operand_is_label o1 || operand_is_label o2
  | .Not o1 => operand_is_label o1
  | .Shl o1 o2 => operand_is_label o1 || operand_is_label o2
  | .Shr o1 o2 => operand_is_label o1 || operand_is_label o2
  | .Call o1 => operand_is_label o1
  | .Ret => false
  | .Dbg o1 => operand_is_label o1
  | .DbgRegs => false
  | .Nop => false
  | .Halt => false

/-- Claim-side predicate: every Symbolic label of the verb sits in a
control-transfer operand position, that is in Jmp's or Call's operand or in
the first operand of Jz or Jnz — the design assumption of the spec that
arithmetic and data operands are never labels. -/
def labels_only_in_ct_pos : Verb → Bool
  | .Jmp _ => true
  | .Jz _ o2 => !(operand_is_label o2)
  | .Jnz _ o2 => !(operand_is_label o2)
  | .Call _ => true
  | v => !(verb_has_label v)

/-- Claim-side per-instruction description of what the Label Resolver does: a
control-transfer verb whose transfer operand is a label present in the table
has exactly that operand replaced by the mapped Immediate; every other
instruction is left entirely unchanged. -/
def resolves_to (m : String → Option Nat) (v v' : Verb) : Prop :=
  match v with
  | .Jmp (.Label s) => ∃ a, m s = some a ∧ v' = .Jmp (.Imm a)
  | .Jz (.Label s) o2 => ∃ a, m s = some a ∧ v' = .Jz (.Imm a) o2
  | .Jnz (.Label s) o2 => ∃ a, m s = some a ∧ v' = .Jnz (.Imm a) o2
  | .Call (.Label s) => ∃ a, m s = some a ∧ v' = .Call (.Imm a)
  | _ => v' = v

/-- Claim-side predicate: the verb/operand-kind combination appears in the
byte-layout table of spec section 4.3. -/
def supported : Verb → Bool
  | .Mov (.Reg _) (.Imm _) => true
  | .Mov (.Reg _) (.MemAtImm _) => true
  | .Mov (.MemAtImm _) (.Reg _) => true
  | .Mov (.Reg _) (.Reg _) => true
  | .Mov (.Reg _) (.MemAtReg _) => true
  | .Mov (.MemAtReg _) (.Reg _) => true
  | .Jmp (.Imm _) => true
  | .Jz (.Imm _) (.Reg _) => true
  | .Jnz (.Imm _) (.Reg _) => true
  | .Add (.Reg _) (.Reg _) => true
  | .Add (.Reg _) (.Imm _) => true
  | .Sub (.Reg _) (.Reg _) => true
  | .Sub (.Reg _) (.Imm _) => true
  | .And (.Reg _) (.Reg _) => true
  | .And (.Reg _) (.Imm _) => true
  | .Or (.Reg _) (.Reg _) => true
  | .Or (.Reg _) (.Imm _) => true
  | .Not (.Reg _) => true
  | .Shl (.Reg _) (.Reg _) => true
  | .Shl (.Reg _) (.Imm _) => true
  | .Shr (.Reg _) (.Reg _) => true
  | .Shr (.Reg _) (.Imm _) => true
  | .Dbg (.Imm _) => true
  | .DbgRegs => true
  | .Nop => true
  | .Halt => true
  | .Call (.Imm _) => true
  | .Ret => true
  | _ => false

/-- Claim-side rendering of an operand, following the words of the claim:
register as R and the id, immediate as 0x and hex digits, memory-at-register
and memory-at-immediate bracketed, label as the raw name. -/
def claim_operand_text : Operand → String
  | .Reg r => "R" ++ Nat.repr r.to_id
  | .Imm v => "0x" ++ nat_to_hex v
  | .Label name => name
  | .MemAtReg r => "[" ++ ("R" ++ Nat.repr r.to_id) ++ "]"
  | .MemAtImm v => "[0x" ++ nat_to_hex v ++ "]"

/-- Claim-side rendering of a verb, following the words of the claim: the
mnemonic name followed by its space-separated operands, with no trailing
space anywhere. -/
def claim_verb_text : Verb → String
  | .Mov o1 o2 => "mov " ++ claim_operand_text o1 ++ " " ++ claim_operand_text o2
  | .Jmp o1 => "jmp " ++ claim_operand_text o1
  | .Jz o1 o2 => "jz " ++ claim_operand_text o1 ++ " " ++ claim_operand_text o2
  | .Jnz o1 o2 => "jnz " ++ claim_operand_text o1 ++ " " ++ claim_operand_text o2
  | .Add o1 o2 => "add " ++ claim_operand_text o1 ++ " " ++ claim_operand_text o2
  | .Sub o1 o2 => "sub " ++ claim_operand_text o1 ++ " " ++ claim_operand_text o2
  | .And o1 o2 => "and " ++ claim_operand_text o1 ++ " " ++ claim_operand_text o2
  | .Or o1 o2 => "or " ++ claim_operand_text o1 ++ " " ++ claim_operand_text o2
  | .Not o1 => "not " ++ claim_operand_text o1
  | .Shl o1 o2 => "shl " ++ claim_operand_text o1 ++ " " ++ claim_operand_text o2
  | .Shr o1 o2 => "shr " ++ claim_operand_text o1 ++ " " ++ claim_operand_text o2
  | .Dbg o1 => "dbg " ++ claim_operand_text o1
  | .DbgRegs => "dbg"
  | .Nop => "nop"
  | .Halt => "halt"
  | .Call o1 => "call " ++ claim_operand_text o1
  | .Ret => "ret"

/-- The extra text the source's Display emits beyond the claim-side rendering:
one trailing space on Jmp, nothing anywhere else. -/
def jmp_trailing : Verb → String
  | .Jmp _ => " "
  | _ => ""

/-- Shifting a 4-bit register id into the high nibble and masking with 0xF0
changes nothing. -/
theorem shl4_and_240 (r : Reg) : (r.to_id <<< 4) &&& 240 = r.to_id <<< 4 := by
  cases r <;> decide

/-- Masking with the low nibble commutes with first reducing modulo 256. -/
theorem and15_mod256 (n : Nat) : (n % 256) &&& 15 = n &&& 15 := by
  have h1 := Nat.and_pow_two_sub_one_eq_mod (n % 256) 4
  have h2 := Nat.and_pow_two_sub_one_eq_mod n 4
  have h3 : n % 256 % 16 = n % 16 := Nat.mod_mod_of_dvd n (by norm_num)
  simp only [show (2 : Nat) ^ 4 - 1 = 15 by norm_num, show (2 : Nat) ^ 4 = 16 by norm_num]
    at h1 h2
  rw [h1, h2, h3]

/-- Masking a Nat with the low nibble is reduction modulo 16. -/
theorem and15_eq_mod16 (n : Nat) : n &&& 15 = n % 16 := by
  have h := Nat.and_pow_two_sub_one_eq_mod n 4
  simpa using h

/-- C1: for every verb/operand-kind combination listed in the byte-layout
table of spec section 4.3, `to_bytes` returns exactly the 3 bytes that row
specifies, with any 16-bit immediate stored big-endian in bytes 1 and 2.  The
right-hand sides below transcribe the table rows verbatim, one conjunct per
row, universally quantified over the registers and the 16-bit immediate. -/
theorem c1_encoding_table (r1 r2 : Reg) (imm : Nat) (h : imm < 65536) :
    Verb.to_bytes (.Mov (.Reg r1) (.Imm imm)) = .ok (0x10 ||| r1.to_id, imm / 256, imm % 256)
    ∧ Verb.to_bytes (.Mov (.Reg r1) (.MemAtImm imm))
      = .ok (0x20 ||| r1.to_id, imm / 256, imm % 256)
    ∧ Verb.to_bytes (.Mov (.MemAtImm imm) (.Reg r1))
      = .ok (0x30 ||| r1.to_id, imm / 256, imm % 256)
    ∧ Verb.to_bytes (.Mov (.Reg r1) (.Reg r2))
      = .ok (0xF0, 0x00, (r1.to_id <<< 4) ||| r2.to_id)
    ∧ Verb.to_bytes (.Mov (.Reg r1) (.MemAtReg r2))
      = .ok (0xF0, 0x01, (r1.to_id <<< 4) ||| r2.to_id)
    ∧ Verb.to_bytes (.Mov (.MemAtReg r1) (.Reg r2))
      = .ok (0xF0, 0x02, (r1.to_id <<< 4) ||| r2.to_id)
    ∧ Verb.to_bytes (.Jmp (.Imm imm)) = .ok (0xE3, imm / 256, imm % 256)
    ∧ Verb.to_bytes (.Jz (.Imm imm) (.Reg r1))
      = .ok (0x40 ||| r1.to_id, imm / 256, imm % 256)
    ∧ Verb.to_bytes (.Jnz (.Imm imm) (.Reg r1))
      = .ok (0x50 ||| r1.to_id, imm / 256, imm % 256)
    ∧ Verb.to_bytes (.Add (.Reg r1) (.Reg r2))
      = .ok (0xF0, 0x20, (r1.to_id <<< 4) ||| r2.to_id)
    ∧ Verb.to_bytes (.Sub (.Reg r1) (.Reg r2))
      = .ok (0xF0, 0x21, (r1.to_id <<< 4) ||| r2.to_id)
    ∧ Verb.to_bytes (.And (.Reg r1) (.Reg r2))
      = .ok (0xF0, 0x22, (r1.to_id <<< 4) ||| r2.to_id)
    ∧ Verb.to_bytes (.Or (.Reg r1) (.Reg r2))
      = .ok (0xF0, 0x23, (r1.to_id <<< 4) ||| r2.to_id)
    ∧ Verb.to_bytes (.Add (.Reg r1) (.Imm imm))
      = .ok (0xA0 ||| r1.to_id, imm / 256, imm % 256)
    ∧ Verb.to_bytes (.Sub (.Reg r1) (.Imm imm))
      = .ok (0xB0 ||| r1.to_id, imm / 256, imm % 256)
    ∧ Verb.to_bytes (.And (.Reg r1) (.Imm imm))
      = .ok (0xC0 ||| r1.to_id, imm / 256, imm % 256)
    ∧ Verb.to_bytes (.Or (.Reg r1) (.Imm imm))
      = .ok (0xD0 ||| r1.to_id, imm / 256, imm % 256)
    ∧ Verb.to_bytes (.Not (.Reg r1)) = .ok (0xF0, 0x24, r1.to_id <<< 4)
    ∧ Verb.to_bytes (.Shl (.Reg r1) (.Reg r2))
      = .ok (0xF0, 0x31, (r1.to_id <<< 4) ||| r2.to_id)
    ∧ Verb.to_bytes (.Shr (.Reg r1) (.Reg r2))
      = .ok (0xF0, 0x33, (r1.to_id <<< 4) ||| r2.to_id)
    ∧ Verb.to_bytes (.Shl (.Reg r1) (.Imm imm))
      = .ok (0xF0, 0x30, (r1.to_id <<< 4) ||| (imm &&& 0xF))
    ∧ Verb.to_bytes (.Shr (.Reg r1) (.Imm imm))
      = .ok (0xF0, 0x32, (r1.to_id <<< 4) ||| (imm &&& 0xF))
    ∧ Verb.to_bytes (.Dbg (.Imm imm)) = .ok (0xE0, imm / 256, imm % 256)
    ∧ Verb.to_bytes .DbgRegs = .ok (0xE1, 0x00, 0x00)
    ∧ Verb.to_bytes (.Call (.Imm imm)) = .ok (0xE4, imm / 256, imm % 256)
    ∧ Verb.to_bytes .Nop = .ok (0x00, 0x00, 0x00)
    ∧ Verb.to_bytes .Halt = .ok (0xFF, 0xFF, 0xFF)
    ∧ Verb.to_bytes .Ret = .ok (0xFF, 0xFF, 0xF0) := by
  have hdiv : imm / 256 % 256 = imm / 256 := by omega
  refine ⟨?_, ?_, ?_, ?_, ?_, ?_, ?_, ?_, ?_, ?_, ?_, ?_, ?_, ?_, ?_, ?_, ?_, ?_, ?_,
    ?_, ?_, ?_, ?_, ?_, ?_, ?_, ?_, ?_⟩ <;>
    simp [Verb.to_bytes, Reg.write_into_byte_lower, Reg.write_into_byte_upper,
      write_imm_to_byte_lower, to_be_bytes, Operand.to_imm, Operand.to_reg,
      hdiv, shl4_and_240, and15_mod256,
      show (16 : Nat) &&& 240 = 16 from by decide,
      show (32 : Nat) &&& 240 = 32 from by decide,
      show (48 : Nat) &&& 240 = 48 from by decide,
      show (64 : Nat) &&& 240 = 64 from by decide,
      show (80 : Nat) &&& 240 = 80 from by decide,
      show (160 : Nat) &&& 240 = 160 from by decide,
      show (176 : Nat) &&& 240 = 176 from by decide,
      show (192 : Nat) &&& 240 = 192 from by decide,
      show (208 : Nat) &&& 240 = 208 from by decide]

/-- Witness for C1 at the examples named by the claim. -/
theorem c1_encoding_table_witness :
    Verb.to_bytes (.Mov (.Reg .R1) (.Imm 0xFF)) = .ok (0x11, 0x00, 0xFF)
    ∧ Verb.to_bytes (.Add (.Reg .R2) (.Reg .R3)) = .ok (0xF0, 0x20, 0x23) := by
  have h := c1_encoding_table .R1 .R3 0xFF (by decide)
  refine ⟨?_, ?_⟩
  · have h1 := h.1
    simpa using h1
  · have h2 := (c1_encoding_table .R2 .R3 0xFF (by decide)).2.2.2.2.2.2.2.2.2.1
    simpa using h2

/-- C6: encoding a shift by immediate places only the low 4 bits of the
immediate (its value modulo 16) in the low nibble of byte 2, with the
register id in the upper nibble; every higher bit of the immediate is
discarded. -/
theorem c6_shift_truncation (r : Reg) (n : Nat) (h : n < 65536) :
    Verb.to_bytes (.Shl (.Reg r) (.Imm n)) = .ok (0xF0, 0x30, (r.to_id <<< 4) ||| (n % 16))
    ∧ Verb.to_bytes (.Shr (.Reg r) (.Imm n))
      = .ok (0xF0, 0x32, (r.to_id <<< 4) ||| (n % 16)) := by
  have hmod : n % 256 % 16 = n % 16 := Nat.mod_mod_of_dvd n (by norm_num)
  constructor <;>
    simp [Verb.to_bytes, Reg.write_into_byte_upper, write_imm_to_byte_lower,
      to_be_bytes, shl4_and_240, and15_mod256, and15_eq_mod16, hmod]

/-- Witness for C6 at the claim's example: Shl of R0 by the immediate 0x1F
encodes with byte 2 equal to 0x0F, not 0x1F. -/
theorem c6_shift_truncation_witness :
    Verb.to_bytes (.Shl (.Reg .R0) (.Imm 0x1F)) = .ok (0xF0, 0x30, 0x0F) := by
  have h := (c6_shift_truncation .R0 0x1F (by decide)).1
  simpa using h

/-- C5 counterexample: the encoder's failure on an unsupported operand-kind
combination is the Rust panic of an `unreachable` catch-all arm (a process
abort), not a recoverable error value describing the combination: two
different unsupported combinations produce the identical failure. -/
theorem c5_counterexample :
    Verb.to_bytes (.Mov (.Imm 0) (.Imm 0)) = .error unreachableMsg
    ∧ Verb.to_bytes (.Add (.Imm 1) (.Imm 2)) = .error unreachableMsg
    ∧ Verb.to_bytes (.Mov (.Imm 0) (.Imm 0)) = Verb.to_bytes (.Add (.Imm 1) (.Imm 2)) :=
  ⟨rfl, rfl, rfl⟩

/-- C5 amended: encoding a verb applied to an operand-kind combination not
listed in the table of spec section 4.3 never silently produces bytes — it
always fails — but the failure is a panic (the message of an argumentless
`unreachable` or `panic` macro, identifying nothing about the combination),
not a recoverable error value. -/
theorem c5_unsupported_combination (v : Verb) (h : supported v = false) :
    Verb.to_bytes v = .error unreachableMsg ∨ Verb.to_bytes v = .error explicitPanicMsg := by
  cases v with
  | Mov o1 o2 => cases o1 <;> cases o2 <;> simp_all [supported, Verb.to_bytes]
  | Jmp o1 => cases o1 <;> simp_all [supported, Verb.to_bytes, Operand.to_imm]
  | Jz o1 o2 =>
    cases o1 <;> cases o2 <;>
      simp_all [supported, Verb.to_bytes, Operand.to_imm, Operand.to_reg]
  | Jnz o1 o2 =>
    cases o1 <;> cases o2 <;>
      simp_all [supported, Verb.to_bytes, Operand.to_imm, Operand.to_reg]
  | Add o1 o2 => cases o1 <;> cases o2 <;> simp_all [supported, Verb.to_bytes]
  | Sub o1 o2 => cases o1 <;> cases o2 <;> simp_all [supported, Verb.to_bytes]
  | And o1 o2 => cases o1 <;> cases o2 <;> simp_all [supported, Verb.to_bytes]
  | Or o1 o2 => cases o1 <;> cases o2 <;> simp_all [supported, Verb.to_bytes]
  | Not o1 => cases o1 <;> simp_all [supported, Verb.to_bytes, Operand.to_reg]
  | Shl o1 o2 => cases o1 <;> cases o2 <;> simp_all [supported, Verb.to_bytes]
  | Shr o1 o2 => cases o1 <;> cases o2 <;> simp_all [supported, Verb.to_bytes]
  | Call o1 => cases o1 <;> simp_all [supported, Verb.to_bytes, Operand.to_imm]
  | Ret => simp_all [supported]
  | Dbg o1 => cases o1 <;> simp_all [supported, Verb.to_bytes, Operand.to_imm]
  | DbgRegs => simp_all [supported]
  | Nop => simp_all [supported]
  | Halt => simp_all [supported]

/-- Witness for the amended C5 at the unsupported combination Mov of two
immediates. -/
theorem c5_unsupported_combination_witness :
    Verb.to_bytes (.Mov (.Imm 0) (.Imm 7)) = .error unreachableMsg
    ∨ Verb.to_bytes (.Mov (.Imm 0) (.Imm 7)) = .error explicitPanicMsg :=
  c5_unsupported_combination (.Mov (.Imm 0) (.Imm 7)) (by decide)

/-- C9: extracting the register of a non-Register operand fails, extracting
the immediate of a non-Immediate operand fails, in neither case silently
returning a value, and that accessor-misuse failure (the `explicit panic`
message of Rust's argumentless `panic` macro) is a different value from the
encoder's unsupported-operand-combination failure (the `unreachable` panic,
exhibited here at Mov of two immediates). -/
theorem c9_accessor_misuse :
    (∀ o : Operand, operand_is_reg o = false → o.to_reg = .error explicitPanicMsg)
    ∧ (∀ o : Operand, operand_is_imm o = false → o.to_imm = .error explicitPanicMsg)
    ∧ Verb.to_bytes (.Mov (.Imm 0) (.Imm 0)) = .error unreachableMsg
    ∧ explicitPanicMsg ≠ unreachableMsg := by
  refine ⟨?_, ?_, rfl, by decide⟩
  · intro o ho
    cases o <;> simp_all [operand_is_reg, Operand.to_reg]
  · intro o ho
    cases o <;> simp_all [operand_is_imm, Operand.to_imm]

/-- Witness for C9 at an Immediate operand asked for its register and a
Register operand asked for its immediate. -/
theorem c9_accessor_misuse_witness :
    Operand.to_reg (.Imm 3) = .error explicitPanicMsg
    ∧ Operand.to_imm (.Reg .R0) = .error explicitPanicMsg :=
  ⟨c9_accessor_misuse.1 (.Imm 3) (by decide),
   c9_accessor_misuse.2.1 (.Reg .R0) (by decide)⟩

/-- One resolver step on a successful instruction realises the claim-side
per-instruction relation. -/
theorem resolve_verb_ok (m : String → Option Nat) (v v' : Verb)
    (h : resolve_verb m v = .ok v') : resolves_to m v v' := by
  cases v with
  | Jmp o1 =>
    cases o1 with
    | Label s =>
      cases hm : m s with
      | some a =>
        simp [resolve_verb, resolve_operand, hm] at h
        exact ⟨a, hm, h.symm⟩
      | none => simp [resolve_verb, resolve_operand, hm] at h
    | Reg r => exact (Except.ok.inj h).symm
    | Imm i => exact (Except.ok.inj h).symm
    | MemAtReg r => exact (Except.ok.inj h).symm
    | MemAtImm i => exact (Except.ok.inj h).symm
  | Jz o1 o2 =>
    cases o1 with
    | Label s =>
      cases hm : m s with
      | some a =>
        simp [resolve_verb, resolve_operand, hm] at h
        exact ⟨a, hm, h.symm⟩
      | none => simp [resolve_verb, resolve_operand, hm] at h
    | Reg r => exact (Except.ok.inj h).symm
    | Imm i => exact (Except.ok.inj h).symm
    | MemAtReg r => exact (Except.ok.inj h).symm
    | MemAtImm i => exact (Except.ok.inj h).symm
  | Jnz o1 o2 =>
    cases o1 with
    | Label s =>
      cases hm : m s with
      | some a =>
        simp [resolve_verb, resolve_operand, hm] at h
        exact ⟨a, hm, h.symm⟩
      | none => simp [resolve_verb, resolve_operand, hm] at h
    | Reg r => exact (Except.ok.inj h).symm
    | Imm i => exact (Except.ok.inj h).symm
    | MemAtReg r => exact (Except.ok.inj h).symm
    | MemAtImm i => exact (Except.ok.inj h).symm
  | Call o1 =>
    cases o1 with
    | Label s =>
      cases hm : m s with
      | some a =>
        simp [resolve_verb, resolve_operand, hm] at h
        exact ⟨a, hm, h.symm⟩
      | none => simp [resolve_verb, resolve_operand, hm] at h
    | Reg r => exact (Except.ok.inj h).symm
    | Imm i => exact (Except.ok.inj h).symm
    | MemAtReg r => exact (Except.ok.inj h).symm
    | MemAtImm i => exact (Except.ok.inj h).symm
  | Mov o1 o2 => exact (Except.ok.inj h).symm
  | Add o1 o2 => exact (Except.ok.inj h).symm
  | Sub o1 o2 => exact (Except.ok.inj h).symm
  | And o1 o2 => exact (Except.ok.inj h).symm
  | Or o1 o2 => exact (Except.ok.inj h).symm
  | Not o1 => exact (Except.ok.inj h).symm
  | Shl o1 o2 => exact (Except.ok.inj h).symm
  | Shr o1 o2 => exact (Except.ok.inj h).symm
  | Dbg o1 => exact (Except.ok.inj h).symm
  | Ret => exact (Except.ok.inj h).symm
  | DbgRegs => exact (Except.ok.inj h).symm
  | Nop => exact (Except.ok.inj h).symm
  | Halt => exact (Except.ok.inj h).symm

/-- An instruction with no label operand passes one resolver step unchanged. -/
theorem resolve_verb_no_label (m : String → Option Nat) (v : Verb)
    (h : verb_has_label v = false) : resolve_verb m v = .ok v := by
  cases v with
  | Jmp o1 => cases o1 <;> simp_all [verb_has_label, operand_is_label, resolve_verb, resolve_operand]
  | Jz o1 o2 => cases o1 <;> simp_all [verb_has_label, operand_is_label, resolve_verb, resolve_operand]
  | Jnz o1 o2 => cases o1 <;> simp_all [verb_has_label, operand_is_label, resolve_verb, resolve_operand]
  | Call o1 => cases o1 <;> simp_all [verb_has_label, operand_is_label, resolve_verb, resolve_operand]
  | Mov o1 o2 => rfl
  | Add o1 o2 => rfl
  | Sub o1 o2 => rfl
  | And o1 o2 => rfl
  | Or o1 o2 => rfl
  | Not o1 => rfl
  | Shl o1 o2 => rfl
  | Shr o1 o2 => rfl
  | Dbg o1 => rfl
  | Ret => rfl
  | DbgRegs => rfl
  | Nop => rfl
  | Halt => rfl

/-- The output of a successful resolver step passes a second step unchanged:
the transfer operand is no longer a label. -/
theorem resolve_verb_idem (m : String → Option Nat) (v v' : Verb)
    (h : resolve_verb m v = .ok v') : resolve_verb m v' = .ok v' := by
  cases v with
  | Jmp o1 =>
    cases o1 with
    | Label s =>
      cases hm : m s with
      | some a =>
        simp [resolve_verb, resolve_operand, hm] at h
        rw [← h]; rfl
      | none => simp [resolve_verb, resolve_operand, hm] at h
    | Reg r => rw [← Except.ok.inj h]; rfl
    | Imm i => rw [← Except.ok.inj h]; rfl
    | MemAtReg r => rw [← Except.ok.inj h]; rfl
    | MemAtImm i => rw [← Except.ok.inj h]; rfl
  | Jz o1 o2 =>
    cases o1 with
    | Label s =>
      cases hm : m s with
      | some a =>
        simp [resolve_verb, resolve_operand, hm] at h
        rw [← h]; rfl
      | none => simp [resolve_verb, resolve_operand, hm] at h
    | Reg r => rw [← Except.ok.inj h]; rfl
    | Imm i => rw [← Except.ok.inj h]; rfl
    | MemAtReg r => rw [← Except.ok.inj h]; rfl
    | MemAtImm i => rw [← Except.ok.inj h]; rfl
  | Jnz o1 o2 =>
    cases o1 with
    | Label s =>
      cases hm : m s with
      | some a =>
        simp [resolve_verb, resolve_operand, hm] at h
        rw [← h]; rfl
      | none => simp [resolve_verb, resolve_operand, hm] at h
    | Reg r => rw [← Except.ok.inj h]; rfl
    | Imm i => rw [← Except.ok.inj h]; rfl
    | MemAtReg r => rw [← Except.ok.inj h]; rfl
    | MemAtImm i => rw [← Except.ok.inj h]; rfl
  | Call o1 =>
    cases o1 with
    | Label s =>
      cases hm : m s with
      | some a =>
        simp [resolve_verb, resolve_operand, hm] at h
        rw [← h]; rfl
      | none => simp [resolve_verb, resolve_operand, hm] at h
    | Reg r => rw [← Except.ok.inj h]; rfl
    | Imm i => rw [← Except.ok.inj h]; rfl
    | MemAtReg r => rw [← Except.ok.inj h]; rfl
    | MemAtImm i => rw [← Except.ok.inj h]; rfl
  | Mov o1 o2 => rw [← Except.ok.inj h]; rfl
  | Add o1 o2 => rw [← Except.ok.inj h]; rfl
  | Sub o1 o2 => rw [← Except.ok.inj h]; rfl
  | And o1 o2 => rw [← Except.ok.inj h]; rfl
  | Or o1 o2 => rw [← Except.ok.inj h]; rfl
  | Not o1 => rw [← Except.ok.inj h]; rfl
  | Shl o1 o2 => rw [← Except.ok.inj h]; rfl
  | Shr o1 o2 => rw [← Except.ok.inj h]; rfl
  | Dbg o1 => rw [← Except.ok.inj h]; rfl
  | Ret => rw [← Except.ok.inj h]; rfl
  | DbgRegs => rw [← Except.ok.inj h]; rfl
  | Nop => rw [← Except.ok.inj h]; rfl
  | Halt => rw [← Except.ok.inj h]; rfl

/-- A failing resolver step fails with the unresolved-label message for a name
absent from the table. -/
theorem resolve_verb_error_name (m : String → Option Nat) (v : Verb) (e : String)
    (h : resolve_verb m v = .error e) :
    ∃ s, e = "unresolved label: " ++ s ∧ m s = none := by
  cases v with
  | Jmp o1 =>
    cases o1 with
    | Label s =>
      cases hm : m s with
      | some a => simp [resolve_verb, resolve_operand, hm] at h
      | none =>
        simp [resolve_verb, resolve_operand, hm] at h
        exact ⟨s, h.symm, hm⟩
    | Reg r => exact Except.noConfusion h
    | Imm i => exact Except.noConfusion h
    | MemAtReg r => exact Except.noConfusion h
    | MemAtImm i => exact Except.noConfusion h
  | Jz o1 o2 =>
    cases o1 with
    | Label s =>
      cases hm : m s with
      | some a => simp [resolve_verb, resolve_operand, hm] at h
      | none =>
        simp [resolve_verb, resolve_operand, hm] at h
        exact ⟨s, h.symm, hm⟩
    | Reg r => exact Except.noConfusion h
    | Imm i => exact Except.noConfusion h
    | MemAtReg r => exact Except.noConfusion h
    | MemAtImm i => exact Except.noConfusion h
  | Jnz o1 o2 =>
    cases o1 with
    | Label s =>
      cases hm : m s with
      | some a => simp [resolve_verb, resolve_operand, hm] at h
      | none =>
        simp [resolve_verb, resolve_operand, hm] at h
        exact ⟨s, h.symm, hm⟩
    | Reg r => exact Except.noConfusion h
    | Imm i => exact Except.noConfusion h
    | MemAtReg r => exact Except.noConfusion h
    | MemAtImm i => exact Except.noConfusion h
  | Call o1 =>
    cases o1 with
    | Label s =>
      cases hm : m s with
      | some a => simp [resolve_verb, resolve_operand, hm] at h
      | none =>
        simp [resolve_verb, resolve_operand, hm] at h
        exact ⟨s, h.symm, hm⟩
    | Reg r => exact Except.noConfusion h
    | Imm i => exact Except.noConfusion h
    | MemAtReg r => exact Except.noConfusion h
    | MemAtImm i => exact Except.noConfusion h
  | Mov o1 o2 => exact Except.noConfusion h
  | Add o1 o2 => exact Except.noConfusion h
  | Sub o1 o2 => exact Except.noConfusion h
  | And o1 o2 => exact Except.noConfusion h
  | Or o1 o2 => exact Except.noConfusion h
  | Not o1 => exact Except.noConfusion h
  | Shl o1 o2 => exact Except.noConfusion h
  | Shr o1 o2 => exact Except.noConfusion h
  | Dbg o1 => exact Except.noConfusion h
  | Ret => exact Except.noConfusion h
  | DbgRegs => exact Except.noConfusion h
  | Nop => exact Except.noConfusion h
  | Halt => exact Except.noConfusion h

/-- When every label of an instruction sits in a control-transfer position, a
successful resolver step leaves no label at all. -/
theorem resolve_verb_ct_no_label (m : String → Option Nat) (v v' : Verb)
    (hct : labels_only_in_ct_pos v = true)
    (h : resolve_verb m v = .ok v') : verb_has_label v' = false := by
  cases v with
  | Jmp o1 =>
    cases o1 with
    | Label s =>
      cases hm : m s with
      | some a =>
        simp [resolve_verb, resolve_operand, hm] at h
        rw [← h]
        rfl
      | none => simp [resolve_verb, resolve_operand, hm] at h
    | Reg r => rw [← Except.ok.inj h]; rfl
    | Imm i => rw [← Except.ok.inj h]; rfl
    | MemAtReg r => rw [← Except.ok.inj h]; rfl
    | MemAtImm i => rw [← Except.ok.inj h]; rfl
  | Jz o1 o2 =>
    cases o1 with
    | Label s =>
      cases hm : m s with
      | some a =>
        simp [resolve_verb, resolve_operand, hm] at h
        rw [← h]
        simp_all [labels_only_in_ct_pos, verb_has_label, operand_is_label]
      | none => simp [resolve_verb, resolve_operand, hm] at h
    | Reg r =>
      rw [← Except.ok.inj h]
      simp_all [labels_only_in_ct_pos, verb_has_label, operand_is_label]
    | Imm i =>
      rw [← Except.ok.inj h]
      simp_all [labels_only_in_ct_pos, verb_has_label, operand_is_label]
    | MemAtReg r =>
      rw [← Except.ok.inj h]
      simp_all [labels_only_in_ct_pos, verb_has_label, operand_is_label]
    | MemAtImm i =>
      rw [← Except.ok.inj h]
      simp_all [labels_only_in_ct_pos, verb_has_label, operand_is_label]
  | Jnz o1 o2 =>
    cases o1 with
    | Label s =>
      cases hm : m s with
      | some a =>
        simp [resolve_verb, resolve_operand, hm] at h
        rw [← h]
        simp_all [labels_only_in_ct_pos, verb_has_label, operand_is_label]
      | none => simp [resolve_verb, resolve_operand, hm] at h
    | Reg r =>
      rw [← Except.ok.inj h]
      simp_all [labels_only_in_ct_pos, verb_has_label, operand_is_label]
    | Imm i =>
      rw [← Except.ok.inj h]
      simp_all [labels_only_in_ct_pos, verb_has_label, operand_is_label]
    | MemAtReg r =>
      rw [← Except.ok.inj h]
      simp_all [labels_only_in_ct_pos, verb_has_label, operand_is_label]
    | MemAtImm i =>
      rw [← Except.ok.inj h]
      simp_all [labels_only_in_ct_pos, verb_has_label, operand_is_label]
  | Call o1 =>
    cases o1 with
    | Label s =>
      cases hm : m s with
      | some a =>
        simp [resolve_verb, resolve_operand, hm] at h
        rw [← h]
        rfl
      | none => simp [resolve_verb, resolve_operand, hm] at h
    | Reg r => rw [← Except.ok.inj h]; rfl
    | Imm i => rw [← Except.ok.inj h]; rfl
    | MemAtReg r => rw [← Except.ok.inj h]; rfl
    | MemAtImm i => rw [← Except.ok.inj h]; rfl
  | Mov o1 o2 =>
    rw [← Except.ok.inj h]
    simp_all [labels_only_in_ct_pos]
  | Add o1 o2 =>
    rw [← Except.ok.inj h]
    simp_all [labels_only_in_ct_pos]
  | Sub o1 o2 =>
    rw [← Except.ok.inj h]
    simp_all [labels_only_in_ct_pos]
  | And o1 o2 =>
    rw [← Except.ok.inj h]
    simp_all [labels_only_in_ct_pos]
  | Or o1 o2 =>
    rw [← Except.ok.inj h]
    simp_all [labels_only_in_ct_pos]
  | Not o1 =>
    rw [← Except.ok.inj h]
    simp_all [labels_only_in_ct_pos]
  | Shl o1 o2 =>
    rw [← Except.ok.inj h]
    simp_all [labels_only_in_ct_pos]
  | Shr o1 o2 =>
    rw [← Except.ok.inj h]
    simp_all [labels_only_in_ct_pos]
  | Dbg o1 =>
    rw [← Except.ok.inj h]
    simp_all [labels_only_in_ct_pos]
  | Ret => rw [← Except.ok.inj h]; rfl
  | DbgRegs => rw [← Except.ok.inj h]; rfl
  | Nop => rw [← Except.ok.inj h]; rfl
  | Halt => rw [← Except.ok.inj h]; rfl

/-- C2: on a successful run of the resolver, every Jmp, Jz, Jnz or Call whose
control-transfer operand is a Symbolic label present in the symbol table has
exactly that operand replaced by an Immediate holding the mapped address, with
no other part of the instruction changed, and every instruction of any other
verb is left entirely unchanged. -/
theorem c2_resolution_rewrite (l l' : List Verb) (m : String → Option Nat)
    (h : resolve_labels l m = .ok l') : List.Forall₂ (resolves_to m) l l' := by
  induction l generalizing l' with
  | nil =>
    simp [resolve_labels] at h
    subst h
    exact List.Forall₂.nil
  | cons v rest ih =>
    cases hv : resolve_verb m v with
    | error e => simp [resolve_labels, hv] at h
    | ok v' =>
      cases hr : resolve_labels rest m with
      | error p => simp [resolve_labels, hv, hr] at h
      | ok rest' =>
        simp [resolve_labels, hv, hr] at h
        rw [← h]
        exact List.Forall₂.cons (resolve_verb_ok m v v' hv) (ih rest' hr)

/-- Witness for C2: resolving a Jmp to a present label next to a Nop. -/
theorem c2_resolution_rewrite_witness :
    List.Forall₂ (resolves_to (fun s => if s = "loop" then some 6 else none))
      [.Jmp (.Label "loop"), .Nop] [.Jmp (.Imm 6), .Nop] :=
  c2_resolution_rewrite [.Jmp (.Label "loop"), .Nop] [.Jmp (.Imm 6), .Nop]
    (fun s => if s = "loop" then some 6 else none) rfl

/-- C3 counterexample: a Mov carrying a Symbolic label in its first operand
passes the resolver without error and the label survives in the output, so a
successful run does not guarantee the absence of Symbolic labels in every
operand position of every verb. -/
theorem c3_counterexample :
    resolve_labels [.Mov (.Label "x") (.Reg .R0)] (fun _ => none)
      = .ok [.Mov (.Label "x") (.Reg .R0)]
    ∧ verb_has_label (.Mov (.Label "x") (.Reg .R0)) = true :=
  ⟨rfl, rfl⟩

/-- C3 amended: when every Symbolic label of the input sits in a
control-transfer operand position (Jmp's and Call's operand, Jz's and Jnz's
first operand) — the spec's stated design assumption — a successful run of
the resolver leaves no Symbolic label anywhere in the output. -/
theorem c3_no_labels_after_resolution (l l' : List Verb) (m : String → Option Nat)
    (hct : ∀ v ∈ l, labels_only_in_ct_pos v = true)
    (h : resolve_labels l m = .ok l') :
    ∀ v' ∈ l', verb_has_label v' = false := by
  induction l generalizing l' with
  | nil =>
    simp [resolve_labels] at h
    subst h
    intro v' hv'
    exact absurd hv' (List.not_mem_nil v')
  | cons v rest ih =>
    cases hv : resolve_verb m v with
    | error e => simp [resolve_labels, hv] at h
    | ok v' =>
      cases hr : resolve_labels rest m with
      | error p => simp [resolve_labels, hv, hr] at h
      | ok rest' =>
        simp [resolve_labels, hv, hr] at h
        rw [← h]
        intro w hw
        cases hw with
        | head =>
          exact resolve_verb_ct_no_label m v v' (hct v (List.mem_cons_self v rest)) hv
        | tail _ hmem =>
          exact ih rest' (fun u hu => hct u (List.mem_cons_of_mem v hu)) hr w hmem

/-- Witness for the amended C3 at a one-instruction program whose Jmp label
resolves. -/
theorem c3_no_labels_after_resolution_witness :
    verb_has_label (.Jmp (.Imm 6)) = false :=
  c3_no_labels_after_resolution [.Jmp (.Label "loop")] [.Jmp (.Imm 6)]
    (fun s => if s = "loop" then some 6 else none)
    (by
      intro v hv
      simp at hv
      rw [hv]
      rfl)
    rfl (.Jmp (.Imm 6)) (List.mem_singleton.mpr rfl)

/-- C4 counterexample: with the table mapping only the name a to 6, resolving
the sequence Jmp to label a, then Jmp to label b, fails on b — but the first
instruction has already been rewritten in place when the panic occurs, so the
failing pass does not leave every other instruction as it was before the pass. -/
theorem c4_counterexample :
    resolve_labels [.Jmp (.Label "a"), .Jmp (.Label "b")]
        (fun s => if s = "a" then some 6 else none)
      = .error ("unresolved label: b", [.Jmp (.Imm 6), .Jmp (.Label "b")])
    ∧ (Verb.Jmp (.Imm 6) ≠ .Jmp (.Label "a")) :=
  ⟨rfl, by decide⟩

/-- C4 amended: a failing resolver run fails with the unresolved-label panic
message naming a label absent from the table; the instruction it failed on and
every instruction after it are exactly as they were, while the instructions
before it have already been resolved in place (the in-place rewrites up to the
panic point persist in the sequence). -/
theorem c4_unresolved_label_error (l : List Verb) (m : String → Option Nat)
    (e : String) (s : List Verb)
    (h : resolve_labels l m = .error (e, s)) :
    ∃ pre pre' v suf name,
      l = pre ++ v :: suf
      ∧ s = pre' ++ v :: suf
      ∧ resolve_labels pre m = .ok pre'
      ∧ e = "unresolved label: " ++ name
      ∧ m name = none := by
  induction l generalizing e s with
  | nil => simp [resolve_labels] at h
  | cons v rest ih =>
    cases hv : resolve_verb m v with
    | error e' =>
      simp [resolve_labels, hv] at h
      obtain ⟨he, hs⟩ := h
      obtain ⟨name, hn, hm⟩ := resolve_verb_error_name m v e' hv
      refine ⟨[], [], v, rest, name, rfl, ?_, rfl, ?_, hm⟩
      · rw [← hs]
        rfl
      · rw [← he]
        exact hn
    | ok v' =>
      cases hr : resolve_labels rest m with
      | ok rest' => simp [resolve_labels, hv, hr] at h
      | error p =>
        obtain ⟨e2, s2⟩ := p
        simp [resolve_labels, hv, hr] at h
        obtain ⟨he, hs⟩ := h
        obtain ⟨pre, pre', w, suf, name, hl, hs2, hpre, hname, hmn⟩ := ih e2 s2 hr
        refine ⟨v :: pre, v' :: pre', w, suf, name, ?_, ?_, ?_, ?_, hmn⟩
        · rw [hl]
          rfl
        · rw [← hs, hs2]
          rfl
        · simp [resolve_labels, hv, hpre]
        · rw [← he]
          exact hname

/-- Witness for the amended C4 at the two-instruction counterexample input. -/
theorem c4_unresolved_label_error_witness :
    ∃ pre pre' v suf name,
      [Verb.Jmp (.Label "a"), Verb.Jmp (.Label "b")] = pre ++ v :: suf
      ∧ [Verb.Jmp (.Imm 6), Verb.Jmp (.Label "b")] = pre' ++ v :: suf
      ∧ resolve_labels pre (fun s => if s = "a" then some 6 else none) = .ok pre'
      ∧ "unresolved label: b" = "unresolved label: " ++ name
      ∧ (fun s => if s = "a" then some 6 else none) name = Option.none :=
  c4_unresolved_label_error [.Jmp (.Label "a"), .Jmp (.Label "b")]
    (fun s => if s = "a" then some 6 else none)
    "unresolved label: b" [.Jmp (.Imm 6), .Jmp (.Label "b")] rfl

/-- C7: running the resolver over a sequence in which no operand of any
instruction is a Symbolic label is a no-op for any symbol table: it succeeds
and returns the sequence unchanged. -/
theorem c7_no_label_noop (l : List Verb) (m : String → Option Nat)
    (h : ∀ v ∈ l, verb_has_label v = false) : resolve_labels l m = .ok l := by
  induction l with
  | nil => rfl
  | cons v rest ih =>
    have h1 : verb_has_label v = false := h v (List.mem_cons_self v rest)
    have h2 : resolve_labels rest m = .ok rest :=
      ih (fun w hw => h w (List.mem_cons_of_mem v hw))
    simp [resolve_labels, resolve_verb_no_label m v h1, h2]

/-- Witness for C7 at a label-free two-instruction program and an arbitrary
table. -/
theorem c7_no_label_noop_witness :
    resolve_labels [.Mov (.Reg .R0) (.Imm 1), .Halt] (fun _ => some 9)
      = .ok [.Mov (.Reg .R0) (.Imm 1), .Halt] :=
  c7_no_label_noop [.Mov (.Reg .R0) (.Imm 1), .Halt] (fun _ => some 9)
    (by
      intro v hv
      simp at hv
      cases hv with
      | inl h1 => rw [h1]; rfl
      | inr h2 => rw [h2]; rfl)

/-- C10: the resolver is idempotent — a second run on the output of a
successful first run, with the same table, also succeeds and changes
nothing. -/
theorem c10_resolver_idempotent (l l' : List Verb) (m : String → Option Nat)
    (h : resolve_labels l m = .ok l') : resolve_labels l' m = .ok l' := by
  induction l generalizing l' with
  | nil =>
    simp [resolve_labels] at h
    subst h
    rfl
  | cons v rest ih =>
    cases hv : resolve_verb m v with
    | error e => simp [resolve_labels, hv] at h
    | ok v' =>
      cases hr : resolve_labels rest m with
      | error p => simp [resolve_labels, hv, hr] at h
      | ok rest' =>
        simp [resolve_labels, hv, hr] at h
        rw [← h]
        simp [resolve_labels, resolve_verb_idem m v v' hv, ih rest' hr]

/-- Witness for C10: re-resolving the output of a successful resolution of a
one-Jmp program. -/
theorem c10_resolver_idempotent_witness :
    resolve_labels [.Jmp (.Imm 6)] (fun s => if s = "loop" then some 6 else none)
      = .ok [.Jmp (.Imm 6)] :=
  c10_resolver_idempotent [.Jmp (.Label "loop")] [.Jmp (.Imm 6)]
    (fun s => if s = "loop" then some 6 else none) rfl

/-- The claim-side operand rendering coincides with the source's Display
rendering of operands. -/
theorem operand_text_eq (o : Operand) : claim_operand_text o = o.display := by
  cases o <;> rfl

/-- The source's Display rendering of a verb is the claim-side rendering plus
the Jmp-only trailing space. -/
theorem display_eq_claim_text (v : Verb) :
    v.display = claim_verb_text v ++ jmp_trailing v := by
  cases v <;>
    simp [Verb.display, claim_verb_text, jmp_trailing, operand_text_eq,
      String.append_assoc]

/-- C8 counterexample: the listing line for Jmp of the immediate 6 embeds the
rendering with a trailing space, jmp 0x6 and a space, where the claim's
rendering (mnemonic followed by space-separated operands) has none, so the
claimed line shape fails on Jmp. -/
theorem c8_counterexample :
    Verb.display (.Jmp (.Imm 6)) = "jmp 0x6 "
    ∧ claim_verb_text (.Jmp (.Imm 6)) = "jmp 0x6"
    ∧ Verb.display (.Jmp (.Imm 6)) ≠ claim_verb_text (.Jmp (.Imm 6))
    ∧ Verb.as_hex_file_line (.Jmp (.Imm 6))
      = .ok ("E3_00_06  // " ++ Verb.display (.Jmp (.Imm 6)))
    ∧ Verb.as_hex_file_line (.Jmp (.Imm 6))
      ≠ .ok ("E3_00_06  // " ++ claim_verb_text (.Jmp (.Imm 6))) := by
  refine ⟨by decide, by decide, by decide, rfl, fun hc => absurd (Except.ok.inj hc) (by decide)⟩

/-- C8 amended: for every verb whose encoding succeeds, the hex listing line
is the three encoded bytes as uppercase zero-padded two-digit hex separated by
underscores, two spaces, a double slash, a space, and the claim's canonical
rendering (mnemonic followed by space-separated operands, register as R and
id, immediate as 0x hex, memory operands bracketed, label as the raw name) —
except that the rendering of a Jmp carries one trailing space after its
operand. -/
theorem c8_hex_line (v : Verb) (b0 b1 b2 : Nat)
    (h : v.to_bytes = .ok (b0, b1, b2)) :
    v.as_hex_file_line
      = .ok (pad2_hex b0 ++ "_" ++ pad2_hex b1 ++ "_" ++ pad2_hex b2 ++ "  // "
          ++ claim_verb_text v ++ jmp_trailing v) := by
  simp [Verb.as_hex_file_line, h, display_eq_claim_text, String.append_assoc]

/-- Witness for the amended C8 at the claim's example Jz of immediate 0x10 and
register R4. -/
theorem c8_hex_line_witness :
    Verb.as_hex_file_line (.Jz (.Imm 0x10) (.Reg .R4))
      = .ok (pad2_hex 0x44 ++ "_" ++ pad2_hex 0x00 ++ "_" ++ pad2_hex 0x10 ++ "  // "
          ++ claim_verb_text (.Jz (.Imm 0x10) (.Reg .R4))
          ++ jmp_trailing (.Jz (.Imm 0x10) (.Reg .R4))) :=
  c8_hex_line (.Jz (.Imm 0x10) (.Reg .R4)) 0x44 0x00 0x10 rfl

end AsmEmu
